import Mathlib

/-!
Shallow embedding of zonal_stats_by_raster.py.

Rasters are modelled as lists of blocks of rational pixel values
(List (List Rat)), matching the block iteration the script uses. External
library effects (filesystem checks, glob expansion, raster metadata and
contents, band statistics, the clock, temp-directory removal) are abstracted
into an Env record, and the main orchestration block is embedded as a function
from that environment to the sequence of external effects it performs (an
event trace) together with the run outcome.
-/

namespace ZonalStats

/-- Model of numpy.isclose with its default tolerances rtol = 1e-5 and
atol = 1e-8: the comparison is |a - b| <= atol + rtol * |b|. Pixel values are
rationals, so the non-finite branches of the numpy implementation do not
arise. -/
def iscloseQ (a b : ℚ) : Bool := |a - b| ≤ 1 / 100000000 + (1 / 100000) * |b|

/-- Model of the elementwise call numpy.isclose(array, nodata) on line 33 of
the script. When the raster has no nodata value (Python None), numpy.isclose
raises a TypeError (its isfinite test is not supported on None), modelled as
Except.error. -/
def npIsClose (block : List ℚ) (nodata : Option ℚ) : Except Unit (List Bool) :=
  match nodata with
  | none => Except.error ()
  | some nd => Except.ok (block.map (fun v => iscloseQ v nd))

/-- Model of the numpy indexing expression array[~mask]: keep the entries of
block at the positions where mask is false. -/
def selectWhereNot (block : List ℚ) (mask : List Bool) : List ℚ :=
  (block.zip mask).filterMap (fun p => if p.2 then none else some p.1)

/-- Embedding of get_unique_values (lines 28-34): fold over the raster blocks,
unioning in the set of block values not close to nodata. The Python set union
of numpy.unique results is the Finset union of the kept values of each
block. -/
def getUniqueValues (blocks : List (List ℚ)) (nodata : Option ℚ) :
    Except Unit (Finset ℚ) :=
  blocks.foldlM
    (fun uniqueSet block =>
      (npIsClose block nodata).map
        (fun mask => uniqueSet ∪ (selectWhereNot block mask).toFinset))
    ∅

/-- Embedding of mask_out_op (lines 37-43): allocate a result shaped like
base_data, fill it with base_nodata, then copy base_data at the positions
where mask_data equals mask_code. Pointwise over aligned arrays this is
an if-then-else on each position. -/
def mask_out_op (mask_data base_data : List ℚ) (mask_code base_nodata : ℚ) :
    List ℚ :=
  List.zipWith (fun m b => if m = mask_code then b else base_nodata)
    mask_data base_data

/-- Decimal digit characters of a natural number rendered at width two,
as Python %02d does for in-range values. -/
def pad2 (n : ℕ) : List Char := [Nat.digitChar (n / 10 % 10), Nat.digitChar (n % 10)]

/-- Decimal digit characters at width four, as Python %04d for in-range
values. -/
def pad4 (n : ℕ) : List Char :=
  [Nat.digitChar (n / 1000 % 10), Nat.digitChar (n / 100 % 10),
   Nat.digitChar (n / 10 % 10), Nat.digitChar (n % 10)]

/-- Decimal digit characters at width six, as Python %06d for in-range
values. -/
def pad6 (n : ℕ) : List Char :=
  [Nat.digitChar (n / 100000 % 10), Nat.digitChar (n / 10000 % 10),
   Nat.digitChar (n / 1000 % 10), Nat.digitChar (n / 100 % 10),
   Nat.digitChar (n / 10 % 10), Nat.digitChar (n % 10)]

/-- Model of the Python standard library rendering str(datetime.datetime.now())
used on line 77: the form is YYYY-MM-DD HH:MM:SS.ffffff, except that the
fractional part (the dot and the six microsecond digits) is omitted entirely
when the microsecond component is zero. Fields are zero-padded to fixed width,
rendered here exactly for in-range field values. -/
def pyDatetimeChars (y mo d h mi s us : ℕ) : List Char :=
  pad4 y ++ ['-'] ++ pad2 mo ++ ['-'] ++ pad2 d ++ [' '] ++ pad2 h ++ [':'] ++
  pad2 mi ++ [':'] ++ pad2 s ++ (if us = 0 then [] else '.' :: pad6 us)

/-- Embedding of the character translation on line 76 of the script: a
character among space, colon, dot and hyphen becomes an underscore, every
other character is kept. -/
def sanitizeChar (c : Char) : Char :=
  if c = ' ' ∨ c = ':' ∨ c = '.' ∨ c = '-' then '_' else c

/-- Embedding of time_as_str (lines 75-77). -/
def timeAsStr (y mo d h mi s us : ℕ) : List Char :=
  (pyDatetimeChars y mo d h mi s us).map sanitizeChar

/-- Embedding of the output file name built on line 78 of the script. -/
def csvFileName (y mo d h mi s us : ℕ) : String :=
  "stats_table_" ++ String.mk (timeAsStr y mo d h mi s us) ++ ".csv"

/-- Model of os.path.basename: the final path component. -/
def basename (p : String) : String := (p.splitOn "/").getLastD p

/-- Model of os.path.join on two components. -/
def pathJoin (a b : String) : String := a ++ "/" ++ b

/-- Model of Python %d formatting applied to a numeric raster value:
truncation toward zero. -/
def pyIntOfRat (q : ℚ) : ℤ := Int.tdiv q.num (q.den : ℤ)

/-- Embedding of the mask raster path built on line 98 of the script. -/
def maskPathFor (workingDir : String) (code : ℚ) : String :=
  pathJoin workingDir (toString (pyIntOfRat code) ++ ".tif")

/-- The slice of pygeoprocessing.get_raster_info that the script reads:
pixel_size, projection, and the first-band nodata value (None when
undefined). -/
structure RasterInfo where
  pixel_size : ℚ × ℚ
  projection : String
  nodata : Option ℚ

/-- Outcome of the shutil.rmtree(working_dir) call on line 118: success, an
OSError, or an exception of any other class. -/
inductive RmtreeOutcome where
  | ok
  | osError
  | otherError
deriving DecidableEq

/-- The external world the script runs against: filesystem checks, glob
expansion, raster metadata and contents, band statistics of the per-code mask
raster of each sample, the clock, the temp directory name, and the outcome of
removing the temp directory. -/
structure Env where
  isfile : String → Bool
  globMatch : String → List String
  rasterInfo : String → RasterInfo
  readBlocks : String → List (List ℚ)
  bandStats : String → ℚ → ℚ × ℚ × ℚ × ℚ
  tmpName : String
  now_y : ℕ
  now_mo : ℕ
  now_d : ℕ
  now_h : ℕ
  now_mi : ℕ
  now_s : ℕ
  now_us : ℕ
  rmtree : RmtreeOutcome

/-- External effects of the orchestration, recorded in program order. -/
inductive Event where
  | getInfo (path : String)
  | readRaster (path : String)
  | mkTemp (dirName : String)
  | createCsv (fileName : String)
  | writeHeader
  | writeRow (rasterFileName : String) (lucode : ℚ) (mn mx mean stdev : ℚ)
  | alignCall (baseList targetList resampleMethods : List String)
      (targetPixelSize : ℚ × ℚ) (boundingBoxMode : String) (targetSrWkt : String)
  | rasterCalc (maskPath : String) (maskCode : ℚ) (targetNodata : Option ℚ)
  | readStats (maskPath : String)
  | closeCsv
  | warnCleanup (dirName : String)
deriving DecidableEq

/-- Errors the script can raise, by source location: the ValueError of line 57,
the ValueError of lines 64-65, the TypeError raised inside get_unique_values
when nodata is None, and a non-OSError escaping the cleanup of lines
117-120. -/
inductive RunError where
  | invalidFile (path : String)
  | noFilesFound (patterns : List String)
  | uniqueScanTypeError
  | cleanupError
deriving DecidableEq

/-- Embedding of the glob expansion loop on lines 59-61: the match lists of the
patterns are appended in order, with no deduplication. -/
def expandPatterns (globMatch : String → List String) (patterns : List String) :
    List String :=
  patterns.foldl (fun acc p => acc ++ globMatch p) []

/-- Events of one iteration of the sample loop (lines 81-115): query the sample
raster info, align the landcover and sample rasters, then for each code run
the mask computation, read its band statistics, and write one CSV row. -/
def sampleEvents (env : Env) (landcover workingDir : String) (codes : List ℚ)
    (sample : String) : List Event :=
  Event.getInfo sample ::
  Event.alignCall [landcover, sample]
    [pathJoin workingDir (basename landcover), pathJoin workingDir (basename sample)]
    ["mode", "near"] (env.rasterInfo sample).pixel_size "intersection"
    (env.rasterInfo sample).projection ::
  codes.flatMap (fun code =>
    [Event.rasterCalc (maskPathFor workingDir code) code
       (env.rasterInfo sample).nodata,
     Event.readStats (maskPathFor workingDir code),
     Event.writeRow (basename sample) code (env.bandStats sample code).1
       (env.bandStats sample code).2.1 (env.bandStats sample code).2.2.1
       (env.bandStats sample code).2.2.2])

/-- Event trace of a run that passes validation and the unique-value scan:
the two raster-info queries and the block scan of the landcover raster
(lines 68-70), temp directory creation, CSV creation and header write, the
sample loop, and the CSV close. -/
def successTrace (env : Env) (landcover : String) (samples : List String)
    (uniqueValues : Finset ℚ) : List Event :=
  Event.getInfo landcover :: Event.getInfo landcover ::
  Event.readRaster landcover ::
  Event.mkTemp env.tmpName ::
  Event.createCsv (csvFileName env.now_y env.now_mo env.now_d env.now_h
    env.now_mi env.now_s env.now_us) ::
  Event.writeHeader ::
  (samples.flatMap
    (sampleEvents env landcover env.tmpName (uniqueValues.sort (· ≤ ·))) ++
   [Event.closeCsv])

/-- Embedding of the main block (lines 46-120): validate the landcover path,
expand the glob patterns and fail on an empty expansion, scan for unique
codes, create the temp directory and the CSV, run the sample and code loops,
close the CSV, and best-effort remove the temp directory. Returns the event
trace up to the point the script stops, paired with the run outcome. -/
def run (env : Env) (landcover : String) (patterns : List String) :
    List Event × Except RunError Unit :=
  if env.isfile landcover = false then
    ([], Except.error (RunError.invalidFile landcover))
  else if expandPatterns env.globMatch patterns = [] then
    ([], Except.error (RunError.noFilesFound patterns))
  else
    match getUniqueValues (env.readBlocks landcover)
        (env.rasterInfo landcover).nodata with
    | Except.error _ =>
        ([Event.getInfo landcover, Event.getInfo landcover,
          Event.readRaster landcover],
         Except.error RunError.uniqueScanTypeError)
    | Except.ok uniqueValues =>
        match env.rmtree with
        | RmtreeOutcome.ok =>
            (successTrace env landcover (expandPatterns env.globMatch patterns)
               uniqueValues,
             Except.ok ())
        | RmtreeOutcome.osError =>
            (successTrace env landcover (expandPatterns env.globMatch patterns)
               uniqueValues ++ [Event.warnCleanup env.tmpName],
             Except.ok ())
        | RmtreeOutcome.otherError =>
            (successTrace env landcover (expandPatterns env.globMatch patterns)
               uniqueValues,
             Except.error RunError.cleanupError)

/-- One line of the output CSV file. -/
inductive CsvLine where
  | header
  | data (rasterFileName : String) (lucode : ℚ) (mn mx mean stdev : ℚ)
deriving DecidableEq

/-- The CSV lines written during a trace, in order. -/
def csvLines (trace : List Event) : List CsvLine :=
  trace.filterMap (fun e =>
    match e with
    | Event.writeHeader => some CsvLine.header
    | Event.writeRow f c mn mx mean sd => some (CsvLine.data f c mn mx mean sd)
    | _ => none)

/-- The CSV data line written for one (sample, code) pair on lines 112-115. -/
def dataLineFor (env : Env) (sample : String) (code : ℚ) : CsvLine :=
  CsvLine.data (basename sample) code (env.bandStats sample code).1
    (env.bandStats sample code).2.1 (env.bandStats sample code).2.2.1
    (env.bandStats sample code).2.2.2

/-- Written from the words of claim C9, not from the source: a character list
of the exact shape YYYY_MM_DD_HH_MM_SS_ffffff, that is, twenty decimal digits
in the claimed field widths with the six separators replaced by
underscores. -/
def isTimestampForm : List Char → Bool
  | [y1, y2, y3, y4, u1, m1, m2, u2, d1, d2, u3, h1, h2, u4, n1, n2, u5,
     s1, s2, u6, f1, f2, f3, f4, f5, f6] =>
    ([y1, y2, y3, y4, m1, m2, d1, d2, h1, h2, n1, n2, s1, s2,
      f1, f2, f3, f4, f5, f6].all Char.isDigit) &&
    ([u1, u2, u3, u4, u5, u6].all (fun u => u == '_'))
  | _ => false

/-- Written from the amended wording of claim C9: the shape
YYYY_MM_DD_HH_MM_SS with no fractional part, that is, fourteen decimal digits
in the claimed field widths with the five separators replaced by
underscores. -/
def isTimestampFormNoFrac : List Char → Bool
  | [y1, y2, y3, y4, u1, m1, m2, u2, d1, d2, u3, h1, h2, u4, n1, n2, u5,
     s1, s2] =>
    ([y1, y2, y3, y4, m1, m2, d1, d2, h1, h2, n1, n2, s1, s2].all Char.isDigit) &&
    ([u1, u2, u3, u4, u5].all (fun u => u == '_'))
  | _ => false

/-- Concrete environment used by the witnesses: every pattern matches the one
sample file s.tif, every raster reports pixel size (1, -1), projection W and
nodata 9, and the landcover raster consists of a single block holding the
single pixel 0. -/
def wEnv : Env where
  isfile := fun _ => true
  globMatch := fun _ => ["s.tif"]
  rasterInfo := fun _ => { pixel_size := (1, -1), projection := "W", nodata := some 9 }
  readBlocks := fun _ => [[0]]
  bandStats := fun _ _ => (0, 0, 0, 0)
  tmpName := "tmp"
  now_y := 2025
  now_mo := 10
  now_d := 12
  now_h := 1
  now_mi := 2
  now_s := 3
  now_us := 4
  rmtree := RmtreeOutcome.ok

/-! Helper lemmas. -/

theorem selectWhereNot_map (block : List ℚ) (f : ℚ → Bool) :
    selectWhereNot block (block.map f) = block.filter (fun v => !f v) := by
  induction block with
  | nil => rfl
  | cons a l ih =>
      cases h : f a <;>
        simp [selectWhereNot, List.filterMap_cons, h, List.filter_cons] <;>
        simpa [selectWhereNot] using ih

theorem except_map_ok {α β ε : Type} (f : α → β) (a : α) :
    Except.map f (Except.ok a : Except ε α) = Except.ok (f a) := rfl

theorem except_ok_bind {α β ε : Type} (a : α) (f : α → Except ε β) :
    ((Except.ok a : Except ε α) >>= f) = f a := rfl

theorem foldlM_ok {α β : Type} (g : β → α → β) (l : List α) (acc : β) :
    (l.foldlM (fun s a => (Except.ok (g s a) : Except Unit β)) acc)
      = Except.ok (l.foldl g acc) := by
  induction l generalizing acc with
  | nil => rfl
  | cons a l ih => rw [List.foldlM_cons, except_ok_bind, ih, List.foldl_cons]

theorem foldl_filter_union (l : List (List ℚ)) (p : ℚ → Bool) (acc : Finset ℚ) :
    l.foldl (fun s b => s ∪ (b.filter p).toFinset) acc
      = acc ∪ (l.flatten.filter p).toFinset := by
  induction l generalizing acc with
  | nil => simp
  | cons b bs ih =>
      rw [List.foldl_cons, ih, List.flatten_cons, List.filter_append,
        List.toFinset_append, Finset.union_assoc]

theorem getUniqueValues_foldl (blocks : List (List ℚ)) (nd : ℚ) (acc : Finset ℚ) :
    blocks.foldlM
      (fun uniqueSet block =>
        (npIsClose block (some nd)).map
          (fun mask => uniqueSet ∪ (selectWhereNot block mask).toFinset)) acc
    = Except.ok
        (acc ∪ (blocks.flatten.filter (fun v => !iscloseQ v nd)).toFinset) := by
  have hfun : (fun (s : Finset ℚ) block =>
        (npIsClose block (some nd)).map
          (fun mask => s ∪ (selectWhereNot block mask).toFinset))
      = (fun (s : Finset ℚ) block =>
          Except.ok (s ∪ (block.filter (fun v => !iscloseQ v nd)).toFinset)) := by
    funext s block
    rw [npIsClose, except_map_ok, selectWhereNot_map]
  rw [hfun, foldlM_ok, foldl_filter_union]

theorem expandPatterns_eq_flatMap (g : String → List String) (ps : List String) :
    expandPatterns g ps = ps.flatMap g := by
  have h : ∀ qs : List String, ∀ acc : List String,
      qs.foldl (fun a p => a ++ g p) acc = acc ++ qs.flatMap g := by
    intro qs
    induction qs with
    | nil => intro acc; simp
    | cons p qs ih => intro acc; simp [ih]
  simpa [expandPatterns] using h ps []

theorem sum_map_const {α : Type} (l : List α) (n : ℕ) :
    (l.map (fun _ => n)).sum = l.length * n := by
  induction l with
  | nil => simp
  | cons a t ih => simp [ih, Nat.succ_mul, Nat.add_comm]

/-! Claims about the two library functions. -/

/-- C1: mask_out_op is a pure pointwise function over aligned arrays: the
output has the length of the base array, and at every in-bounds position the
output value equals the base value when the mask value equals the given code,
and equals the given nodata value otherwise, independent of all other
positions. -/
theorem mask_out_op_pointwise (mask_data base_data : List ℚ)
    (mask_code base_nodata : ℚ) (hlen : mask_data.length = base_data.length)
    (i : ℕ) (hi : i < base_data.length) :
    (mask_out_op mask_data base_data mask_code base_nodata).length
        = base_data.length ∧
    (mask_out_op mask_data base_data mask_code base_nodata)[i]? =
      some (if mask_data.get ⟨i, by omega⟩ = mask_code
            then base_data.get ⟨i, hi⟩ else base_nodata) := by
  have him : i < mask_data.length := by omega
  constructor
  · simp [mask_out_op, hlen]
  · rw [mask_out_op, List.getElem?_zipWith]
    simp [List.getElem?_eq_getElem, him, hi]

/-- Witness for C1 at a concrete input: mask [5, 7], base [10, 20], code 5,
nodata -1, position 0. -/
theorem mask_out_op_pointwise_witness :
    (mask_out_op [5, 7] [10, 20] 5 (-1)).length = ([10, 20] : List ℚ).length ∧
    (mask_out_op [5, 7] [10, 20] 5 (-1))[0]? =
      some (if ([5, 7] : List ℚ).get ⟨0, by decide⟩ = 5
            then ([10, 20] : List ℚ).get ⟨0, by decide⟩ else -1) :=
  mask_out_op_pointwise [5, 7] [10, 20] 5 (-1) (by decide) 0 (by decide)

/-- C2: for every landcover raster with at least one pixel not close to
nodata, get_unique_values returns exactly the set of distinct values present
in the raster excluding values approximately equal (numpy closeness, not exact
equality) to the nodata value, and any other partition of the same pixel
sequence into blocks gives the same result (block-size invariance). -/
theorem getUniqueValues_exact (blocks blocks2 : List (List ℚ)) (nd : ℚ)
    (_hpix : ∃ v ∈ blocks.flatten, iscloseQ v nd = false)
    (hsame : blocks2.flatten = blocks.flatten) :
    getUniqueValues blocks (some nd) =
      Except.ok ((blocks.flatten.filter (fun v => !iscloseQ v nd)).toFinset) ∧
    getUniqueValues blocks2 (some nd) = getUniqueValues blocks (some nd) := by
  have e1 := getUniqueValues_foldl blocks nd ∅
  have e2 := getUniqueValues_foldl blocks2 nd ∅
  constructor
  · simpa [getUniqueValues] using e1
  · rw [getUniqueValues, getUniqueValues, e1, e2, hsame]

/-- Witness for C2 at a concrete input: the raster [0, 3] with nodata 3, split
as [[0], [3]] and repartitioned as [[0, 3]]. -/
theorem getUniqueValues_exact_witness :
    getUniqueValues [[0], [3]] (some 3) =
      Except.ok ((([[0], [3]] : List (List ℚ)).flatten.filter
        (fun v => !iscloseQ v 3)).toFinset) ∧
    getUniqueValues [[0, 3]] (some 3) = getUniqueValues [[0], [3]] (some 3) :=
  getUniqueValues_exact [[0], [3]] [[0, 3]] 3
    ⟨0, by simp, by norm_num [iscloseQ]⟩ (by simp)

/-- C4 counterexample: the glob expansion of lines 59-61 does not deduplicate.
With the same pattern listed twice and a glob function matching it to the
single file f.tif, the expanded list contains f.tif twice, refuting that each
matched file appears at most once. -/
theorem expandPatterns_not_dedup :
    expandPatterns (fun _ => ["f.tif"]) ["p", "p"] = ["f.tif", "f.tif"] ∧
    ¬ (expandPatterns (fun _ => ["f.tif"]) ["p", "p"]).count "f.tif" ≤ 1 := by
  constructor
  · rfl
  · simp [expandPatterns, List.count_cons]

/-- C4 amended: the expanded sample list is the in-order concatenation of each
pattern occurrence's glob matches, with no deduplication: a file occurs in the
expanded list exactly the sum over the patterns of its occurrences in each
pattern's match list. -/
theorem expandPatterns_count (globMatch : String → List String)
    (patterns : List String) (f : String) :
    (expandPatterns globMatch patterns).count f =
      (patterns.map (fun p => (globMatch p).count f)).sum := by
  rw [expandPatterns_eq_flatMap, List.count_flatMap]
  rfl

/-- C10: when the nodata value of the landcover raster is undefined (Python
None), get_unique_values raises (numpy.isclose against None raises a
TypeError) instead of returning the set of distinct values present; a defined
nodata value is an unstated precondition. The hypothesis says the raster has
at least one block, which the block iterator guarantees for any real
raster. -/
theorem getUniqueValues_none_raises (blocks : List (List ℚ))
    (hblocks : blocks ≠ []) :
    getUniqueValues blocks none = Except.error () := by
  cases blocks with
  | nil => cases hblocks rfl
  | cons b bs =>
      simp [getUniqueValues, List.foldlM, npIsClose, Except.map, Except.bind,
        Bind.bind]

/-- Witness for C10 at a concrete input: a raster of one block holding the
single pixel 1, with undefined nodata. -/
theorem getUniqueValues_none_raises_witness :
    getUniqueValues [[1]] none = Except.error () :=
  getUniqueValues_none_raises [[1]] (by simp)

/-! Trace lemmas. -/

theorem csvLines_append (a b : List Event) :
    csvLines (a ++ b) = csvLines a ++ csvLines b :=
  List.filterMap_append a b _

theorem csvLines_codeRows (env : Env) (wd s : String) (codes : List ℚ) :
    csvLines (codes.flatMap (fun code =>
      [Event.rasterCalc (maskPathFor wd code) code (env.rasterInfo s).nodata,
       Event.readStats (maskPathFor wd code),
       Event.writeRow (basename s) code (env.bandStats s code).1
         (env.bandStats s code).2.1 (env.bandStats s code).2.2.1
         (env.bandStats s code).2.2.2]))
    = codes.map (dataLineFor env s) := by
  induction codes with
  | nil => rfl
  | cons c cs ih =>
      rw [List.flatMap_cons, csvLines_append, ih]
      rfl

theorem csvLines_sampleEvents (env : Env) (lc wd : String) (codes : List ℚ)
    (s : String) :
    csvLines (sampleEvents env lc wd codes s) = codes.map (dataLineFor env s) :=
  csvLines_codeRows env wd s codes

theorem csvLines_samplesLoop (env : Env) (lc wd : String) (codes : List ℚ)
    (samples : List String) :
    csvLines (samples.flatMap (sampleEvents env lc wd codes)) =
      samples.flatMap (fun s => codes.map (dataLineFor env s)) := by
  induction samples with
  | nil => rfl
  | cons s ss ih =>
      rw [List.flatMap_cons, List.flatMap_cons, csvLines_append, ih,
        csvLines_sampleEvents]

theorem csvLines_successTrace (env : Env) (lc : String) (samples : List String)
    (uv : Finset ℚ) :
    csvLines (successTrace env lc samples uv) =
      CsvLine.header :: samples.flatMap (fun s =>
        (uv.sort (· ≤ ·)).map (dataLineFor env s)) := by
  show CsvLine.header :: csvLines
      (samples.flatMap (sampleEvents env lc env.tmpName (uv.sort (· ≤ ·))) ++
        [Event.closeCsv]) = _
  rw [csvLines_append, csvLines_samplesLoop,
    show csvLines [Event.closeCsv] = [] from rfl, List.append_nil]

theorem run_reduce (env : Env) (lc : String) (patterns : List String)
    (uv : Finset ℚ)
    (hfile : env.isfile lc = true)
    (hsamples : expandPatterns env.globMatch patterns ≠ [])
    (hscan : getUniqueValues (env.readBlocks lc) (env.rasterInfo lc).nodata
      = Except.ok uv) :
    run env lc patterns =
      (match env.rmtree with
       | RmtreeOutcome.ok =>
           (successTrace env lc (expandPatterns env.globMatch patterns) uv,
            Except.ok ())
       | RmtreeOutcome.osError =>
           (successTrace env lc (expandPatterns env.globMatch patterns) uv
              ++ [Event.warnCleanup env.tmpName], Except.ok ())
       | RmtreeOutcome.otherError =>
           (successTrace env lc (expandPatterns env.globMatch patterns) uv,
            Except.error RunError.cleanupError)) := by
  unfold run
  rw [if_neg (by simp [hfile]), if_neg hsamples, hscan]

/-! Claims about the orchestration. -/

/-- C3: on a run that passes validation and the unique-code scan, the CSV
content is exactly one header line followed by exactly N times M data lines
(M matched samples, N unique codes), ordered sample-major with codes in
ascending order within each sample. -/
theorem run_csv_rows (env : Env) (landcover : String) (patterns : List String)
    (uv : Finset ℚ)
    (hfile : env.isfile landcover = true)
    (hsamples : expandPatterns env.globMatch patterns ≠ [])
    (hscan : getUniqueValues (env.readBlocks landcover)
        (env.rasterInfo landcover).nodata = Except.ok uv) :
    csvLines (run env landcover patterns).1 =
      CsvLine.header ::
        (expandPatterns env.globMatch patterns).flatMap (fun sample =>
          (uv.sort (· ≤ ·)).map (dataLineFor env sample)) ∧
    ((expandPatterns env.globMatch patterns).flatMap (fun sample =>
        (uv.sort (· ≤ ·)).map (dataLineFor env sample))).length =
      (expandPatterns env.globMatch patterns).length * uv.card ∧
    List.Sorted (· ≤ ·) (uv.sort (· ≤ ·)) := by
  refine ⟨?_, ?_, Finset.sort_sorted _ _⟩
  · rw [run_reduce env landcover patterns uv hfile hsamples hscan]
    cases hR : env.rmtree
    · rw [csvLines_successTrace]
    · show csvLines (successTrace _ _ _ _ ++ [Event.warnCleanup env.tmpName]) = _
      rw [csvLines_append, csvLines_successTrace,
        show csvLines [Event.warnCleanup env.tmpName] = [] from rfl,
        List.append_nil]
    · rw [csvLines_successTrace]
  · have hconst : (List.length ∘ fun sample =>
        (uv.sort (· ≤ ·)).map (dataLineFor env sample))
        = fun _ : String => uv.card := by
      funext sample
      simp [Finset.length_sort]
    rw [List.length_flatMap, hconst, sum_map_const]

/-- Witness for C3 at the concrete environment wEnv with landcover lc.tif and
the single pattern p. -/
theorem run_csv_rows_witness :
    csvLines (run wEnv "lc.tif" ["p"]).1 =
      CsvLine.header ::
        (expandPatterns wEnv.globMatch ["p"]).flatMap (fun sample =>
          (({0} : Finset ℚ).sort (· ≤ ·)).map (dataLineFor wEnv sample)) ∧
    ((expandPatterns wEnv.globMatch ["p"]).flatMap (fun sample =>
        (({0} : Finset ℚ).sort (· ≤ ·)).map (dataLineFor wEnv sample))).length =
      (expandPatterns wEnv.globMatch ["p"]).length * ({0} : Finset ℚ).card ∧
    List.Sorted (· ≤ ·) (({0} : Finset ℚ).sort (· ≤ ·)) :=
  run_csv_rows wEnv "lc.tif" ["p"] {0} rfl (by simp [expandPatterns, wEnv])
    (by norm_num [getUniqueValues, npIsClose, selectWhereNot, List.foldlM,
      iscloseQ, Except.map, List.filterMap_cons, wEnv])

/-- C6: when the landcover raster path is not an existing file, the run stops
with the ValueError of line 57 and its event trace is empty: no raster was
opened, no temp directory was created and no CSV file was created. -/
theorem run_invalid_landcover (env : Env) (landcover : String)
    (patterns : List String) (hfile : env.isfile landcover = false) :
    (run env landcover patterns).1 = [] ∧
    (run env landcover patterns).2
      = Except.error (RunError.invalidFile landcover) := by
  unfold run
  rw [if_pos hfile]
  exact ⟨rfl, rfl⟩

/-- Witness for C6 at a concrete environment whose filesystem has no files. -/
theorem run_invalid_landcover_witness :
    (run { wEnv with isfile := fun _ => false } "lc.tif" ["p"]).1 = [] ∧
    (run { wEnv with isfile := fun _ => false } "lc.tif" ["p"]).2
      = Except.error (RunError.invalidFile "lc.tif") :=
  run_invalid_landcover { wEnv with isfile := fun _ => false } "lc.tif" ["p"] rfl

/-- C7: when glob expansion of the sample patterns yields zero files, the run
stops with the ValueError of lines 64-65 and its event trace is empty: no
landcover scan was performed, no temp directory was created and no CSV file
was created. -/
theorem run_empty_glob (env : Env) (landcover : String) (patterns : List String)
    (hfile : env.isfile landcover = true)
    (hsamples : expandPatterns env.globMatch patterns = []) :
    (run env landcover patterns).1 = [] ∧
    (run env landcover patterns).2
      = Except.error (RunError.noFilesFound patterns) := by
  unfold run
  rw [if_neg (by simp [hfile]), if_pos hsamples]
  exact ⟨rfl, rfl⟩

/-- Witness for C7 at a concrete environment whose glob matches nothing. -/
theorem run_empty_glob_witness :
    (run { wEnv with globMatch := fun _ => [] } "lc.tif" ["p"]).1 = [] ∧
    (run { wEnv with globMatch := fun _ => [] } "lc.tif" ["p"]).2
      = Except.error (RunError.noFilesFound ["p"]) :=
  run_empty_glob { wEnv with globMatch := fun _ => [] } "lc.tif" ["p"] rfl
    (by simp [expandPatterns])

theorem wEnv_scan : getUniqueValues (wEnv.readBlocks "lc.tif")
    (wEnv.rasterInfo "lc.tif").nodata = Except.ok ({0} : Finset ℚ) := by
  norm_num [getUniqueValues, npIsClose, selectWhereNot, List.foldlM, iscloseQ,
    Except.map, List.filterMap_cons, wEnv]

theorem wEnv_samples : expandPatterns wEnv.globMatch ["p"] = ["s.tif"] := by
  simp [expandPatterns, wEnv]

/-- C5: every alignment call issued by the run resamples with the method list
[mode, near] (categorical raster by mode, sample raster by nearest-neighbor),
uses the intersection bounding-box policy, and takes both the target pixel
size and the target projection from the sample raster of that iteration. -/
theorem run_align_args (env : Env) (landcover : String) (patterns : List String)
    (b t r : List String) (psz : ℚ × ℚ) (bb sr : String)
    (hmem : Event.alignCall b t r psz bb sr ∈ (run env landcover patterns).1) :
    r = ["mode", "near"] ∧ bb = "intersection" ∧
    ∃ sample ∈ expandPatterns env.globMatch patterns,
      b = [landcover, sample] ∧ psz = (env.rasterInfo sample).pixel_size ∧
      sr = (env.rasterInfo sample).projection := by
  cases hIs : env.isfile landcover with
  | false =>
      unfold run at hmem
      rw [if_pos hIs] at hmem
      simp at hmem
  | true =>
      by_cases hS : expandPatterns env.globMatch patterns = []
      · unfold run at hmem
        rw [if_neg (by simp [hIs]), if_pos hS] at hmem
        simp at hmem
      · cases hScan : getUniqueValues (env.readBlocks landcover)
            (env.rasterInfo landcover).nodata with
        | error e =>
            unfold run at hmem
            rw [if_neg (by simp [hIs]), if_neg hS, hScan] at hmem
            simp at hmem
        | ok uv =>
            rw [run_reduce env landcover patterns uv hIs hS hScan] at hmem
            have hmem2 : Event.alignCall b t r psz bb sr ∈
                successTrace env landcover
                  (expandPatterns env.globMatch patterns) uv := by
              cases hR : env.rmtree
              · rw [hR] at hmem; exact hmem
              · rw [hR] at hmem
                rcases List.mem_append.mp hmem with h | h
                · exact h
                · simp at h
              · rw [hR] at hmem; exact hmem
            simp only [successTrace, sampleEvents, List.mem_cons,
              List.mem_append, List.mem_flatMap, List.mem_singleton] at hmem2
            simp at hmem2
            obtain ⟨sample, hs, hb, ht, hr, hpsz, hbb, hsr⟩ := hmem2
            exact ⟨hr, hbb, sample, hs, hb, hpsz, hsr⟩

/-- Witness for C5 at the concrete environment wEnv: the one alignment call of
the run carries exactly the prescribed arguments. -/
theorem run_align_args_witness :
    ["mode", "near"] = ["mode", "near"] ∧
    "intersection" = "intersection" ∧
    ∃ sample ∈ expandPatterns wEnv.globMatch ["p"],
      ["lc.tif", "s.tif"] = ["lc.tif", sample] ∧
      ((1 : ℚ), (-1 : ℚ)) = (wEnv.rasterInfo sample).pixel_size ∧
      "W" = (wEnv.rasterInfo sample).projection :=
  run_align_args wEnv "lc.tif" ["p"] ["lc.tif", "s.tif"]
    [pathJoin "tmp" (basename "lc.tif"), pathJoin "tmp" (basename "s.tif")]
    ["mode", "near"] (1, -1) "intersection" "W"
    (by
      rw [run_reduce wEnv "lc.tif" ["p"] {0} rfl
        (by simp [expandPatterns, wEnv]) wEnv_scan]
      show _ ∈ successTrace wEnv "lc.tif" (expandPatterns wEnv.globMatch ["p"]) _
      rw [wEnv_samples]
      simp [successTrace, sampleEvents, wEnv, Finset.sort_singleton])

/-- C8: when removal of the temp working directory fails with an OSError, the
error is caught, a warning is logged and the run still succeeds with the
already-written CSV intact; an exception of any other class during cleanup
propagates, also leaving the already-written CSV intact. -/
theorem run_cleanup_behavior (env : Env) (landcover : String)
    (patterns : List String) (uv : Finset ℚ)
    (hfile : env.isfile landcover = true)
    (hsamples : expandPatterns env.globMatch patterns ≠ [])
    (hscan : getUniqueValues (env.readBlocks landcover)
        (env.rasterInfo landcover).nodata = Except.ok uv) :
    (env.rmtree = RmtreeOutcome.osError →
       (run env landcover patterns).2 = Except.ok () ∧
       Event.warnCleanup env.tmpName ∈ (run env landcover patterns).1 ∧
       csvLines (run env landcover patterns).1 =
         csvLines (run { env with rmtree := RmtreeOutcome.ok }
           landcover patterns).1) ∧
    (env.rmtree = RmtreeOutcome.otherError →
       (run env landcover patterns).2 = Except.error RunError.cleanupError ∧
       csvLines (run env landcover patterns).1 =
         csvLines (run { env with rmtree := RmtreeOutcome.ok }
           landcover patterns).1) := by
  have hok : run { env with rmtree := RmtreeOutcome.ok } landcover patterns
      = (successTrace env landcover (expandPatterns env.globMatch patterns) uv,
         Except.ok ()) := by
    rw [run_reduce { env with rmtree := RmtreeOutcome.ok } landcover patterns
      uv hfile hsamples hscan]
    rfl
  constructor
  · intro hR
    have h2 := run_reduce env landcover patterns uv hfile hsamples hscan
    rw [hR] at h2
    rw [h2, hok]
    refine ⟨rfl, by simp, ?_⟩
    show csvLines (successTrace _ _ _ _ ++ [Event.warnCleanup env.tmpName]) = _
    rw [csvLines_append,
      show csvLines [Event.warnCleanup env.tmpName] = [] from rfl,
      List.append_nil]
  · intro hR
    have h2 := run_reduce env landcover patterns uv hfile hsamples hscan
    rw [hR] at h2
    rw [h2, hok]
    exact ⟨rfl, rfl⟩

/-- Witness for C8 at the concrete environment wEnv with an OSError during
cleanup: the run succeeds, logs the warning, and writes the same CSV lines as
the run whose cleanup succeeds. -/
theorem run_cleanup_behavior_witness :
    (run { wEnv with rmtree := RmtreeOutcome.osError } "lc.tif" ["p"]).2
      = Except.ok () ∧
    Event.warnCleanup "tmp"
      ∈ (run { wEnv with rmtree := RmtreeOutcome.osError } "lc.tif" ["p"]).1 ∧
    csvLines (run { wEnv with rmtree := RmtreeOutcome.osError }
        "lc.tif" ["p"]).1 =
      csvLines (run { { wEnv with rmtree := RmtreeOutcome.osError } with
        rmtree := RmtreeOutcome.ok } "lc.tif" ["p"]).1 :=
  (run_cleanup_behavior { wEnv with rmtree := RmtreeOutcome.osError }
    "lc.tif" ["p"] {0} rfl (by simp [expandPatterns, wEnv]) wEnv_scan).1 rfl

/-! Timestamp lemmas for C9. -/

theorem san_digit : ∀ k : ℕ, k < 10 →
    sanitizeChar (Nat.digitChar k) = Nat.digitChar k ∧
    (Nat.digitChar k).isDigit = true := by decide

theorem san_digit_mod (n : ℕ) :
    sanitizeChar (Nat.digitChar (n % 10)) = Nat.digitChar (n % 10) :=
  (san_digit _ (Nat.mod_lt _ (by norm_num))).1

theorem isDigit_mod (n : ℕ) : (Nat.digitChar (n % 10)).isDigit = true :=
  (san_digit _ (Nat.mod_lt _ (by norm_num))).2

theorem timeAsStr_form (y mo d h mi s us : ℕ) (hus : us ≠ 0) :
    isTimestampForm (timeAsStr y mo d h mi s us) = true := by
  simp only [timeAsStr, pyDatetimeChars, pad4, pad2, pad6, if_neg hus,
    List.map_append, List.map_cons, List.map_nil, List.cons_append,
    List.nil_append, List.append_nil, san_digit_mod,
    show sanitizeChar '-' = '_' from rfl,
    show sanitizeChar ' ' = '_' from rfl,
    show sanitizeChar ':' = '_' from rfl,
    show sanitizeChar '.' = '_' from rfl]
  simp [isTimestampForm, isDigit_mod]

theorem timeAsStr_formNoFrac (y mo d h mi s us : ℕ) (hus : us = 0) :
    isTimestampFormNoFrac (timeAsStr y mo d h mi s us) = true := by
  subst hus
  simp only [timeAsStr, pyDatetimeChars, pad4, pad2, if_pos rfl,
    List.map_append, List.map_cons, List.map_nil, List.cons_append,
    List.nil_append, List.append_nil, san_digit_mod,
    show sanitizeChar '-' = '_' from rfl,
    show sanitizeChar ' ' = '_' from rfl,
    show sanitizeChar ':' = '_' from rfl]
  simp [isTimestampFormNoFrac, isDigit_mod]

/-- C9 counterexample: at a clock instant whose microsecond component is zero,
Python str(datetime) omits the fractional part, so the timestamp embedded in
the CSV file name has the form YYYY_MM_DD_HH_MM_SS, not the claimed
YYYY_MM_DD_HH_MM_SS_ffffff. -/
theorem csvFileName_missing_fraction :
    csvFileName 2025 10 12 3 4 5 0 = "stats_table_2025_10_12_03_04_05.csv" ∧
    isTimestampForm (timeAsStr 2025 10 12 3 4 5 0) = false := by
  exact ⟨rfl, rfl⟩

/-- C9 amended: the run creates its CSV in the current directory under the
name stats_table_(timestamp).csv where the timestamp is the current datetime
with space, colon, period and hyphen each replaced by an underscore; the
result has the form YYYY_MM_DD_HH_MM_SS_ffffff when the microsecond component
of the current time is nonzero, and the form YYYY_MM_DD_HH_MM_SS (fractional
part absent) when the microsecond component is zero. -/
theorem run_csv_name (env : Env) (landcover : String) (patterns : List String)
    (uv : Finset ℚ)
    (hfile : env.isfile landcover = true)
    (hsamples : expandPatterns env.globMatch patterns ≠ [])
    (hscan : getUniqueValues (env.readBlocks landcover)
        (env.rasterInfo landcover).nodata = Except.ok uv) :
    Event.createCsv (csvFileName env.now_y env.now_mo env.now_d env.now_h
      env.now_mi env.now_s env.now_us) ∈ (run env landcover patterns).1 ∧
    (env.now_us ≠ 0 → isTimestampForm (timeAsStr env.now_y env.now_mo
      env.now_d env.now_h env.now_mi env.now_s env.now_us) = true) ∧
    (env.now_us = 0 → isTimestampFormNoFrac (timeAsStr env.now_y env.now_mo
      env.now_d env.now_h env.now_mi env.now_s env.now_us) = true) := by
  refine ⟨?_, timeAsStr_form _ _ _ _ _ _ _, timeAsStr_formNoFrac _ _ _ _ _ _ _⟩
  rw [run_reduce env landcover patterns uv hfile hsamples hscan]
  cases hR : env.rmtree
  · show Event.createCsv _ ∈ successTrace _ _ _ _
    simp [successTrace]
  · show Event.createCsv _ ∈ successTrace _ _ _ _ ++ _
    simp [successTrace]
  · show Event.createCsv _ ∈ successTrace _ _ _ _
    simp [successTrace]

/-- Witness for C9 at the concrete environment wEnv, whose clock reads
2025-10-12 01:02:03.000004. -/
theorem run_csv_name_witness :
    Event.createCsv (csvFileName wEnv.now_y wEnv.now_mo wEnv.now_d wEnv.now_h
      wEnv.now_mi wEnv.now_s wEnv.now_us) ∈ (run wEnv "lc.tif" ["p"]).1 ∧
    isTimestampForm (timeAsStr wEnv.now_y wEnv.now_mo wEnv.now_d wEnv.now_h
      wEnv.now_mi wEnv.now_s wEnv.now_us) = true :=
  ⟨(run_csv_name wEnv "lc.tif" ["p"] {0} rfl
      (by simp [expandPatterns, wEnv]) wEnv_scan).1,
   (run_csv_name wEnv "lc.tif" ["p"] {0} rfl
      (by simp [expandPatterns, wEnv]) wEnv_scan).2.1 (by decide)⟩

end ZonalStats
